import Mathlib

/-!
Verification of the smartattendance attendance-marking decision pipeline.

The definitions below are a shallow embedding of the TypeScript source:
* `simulateFaceRecognition` embeds `src/utils/faceRecognition.ts` (the matcher);
  JavaScript numbers are modelled as rationals, `Math.random()` draws are an
  explicit stream `draws : ℕ → ℚ` consumed in source order (index 0 = the
  delay draw, indices 1..n = the per-candidate draws, index n+1 = the
  false-negative draw), and the simulated `setTimeout` delay is recorded in
  the `delayMs` field of the result.
* `handleAttendanceMarked` embeds the function of the same name in
  `src/App.tsx`; the ambient `new Date()` calls in its body are modelled by
  the explicit parameter `now`, and the outcome of the asynchronous storage
  write by the parameter `storageOk`.
* `handleRecognition` embeds the proposal step of
  `src/components/CameraView.tsx`.
* `addNotification`, `markAsRead`, `clearAll` embed
  `src/hooks/useNotifications.ts`.
* `runWrite` embeds the four write operations of `src/hooks/useDatabase.ts`,
  with the backing store made explicit as `Db` and the React state as
  `LocalState`.
-/

/-- A JavaScript `Date`, carrying exactly the observations the source makes
of it: the local calendar date (`toDateString` determines year/month/day),
the local time of day (`getHours`/`getMinutes`), and the epoch value
(`getTime`, in milliseconds, as a rational). -/
structure JsDate where
  year : ℕ
  month : ℕ
  day : ℕ
  hour : ℕ
  minute : ℕ
  epochMs : ℚ
deriving DecidableEq

/-- The local calendar date of a `JsDate`; two dates have equal
`toDateString` exactly when these triples are equal. -/
def dateString (d : JsDate) : ℕ × ℕ × ℕ :=
  (d.year, d.month, d.day)

/-- `getHours() * 60 + getMinutes()`. -/
def minutesOfDay (d : JsDate) : ℕ :=
  d.hour * 60 + d.minute

/-- `Student` from `src/types/index.ts`. -/
structure Student where
  id : String
  name : String
  email : String
  studentId : Option String
  department : Option String
  year : Option String
  photo : Option String
  registeredAt : JsDate
  isActive : Bool
deriving DecidableEq

/-- JavaScript truthiness of `s.photo` (`students.filter(s => s.photo)`):
defined and non-empty. -/
def hasPhoto (s : Student) : Bool :=
  match s.photo with
  | none => false
  | some p => !(p == "")

/-- `Omit<AttendanceRecord, 'id'>` as proposed by the camera pipeline. -/
structure AttendanceRecordIn where
  studentId : String
  studentName : String
  timestamp : JsDate
  confidence : ℚ
  photo : Option String
  location : Option String
  deviceInfo : Option String
deriving DecidableEq

/-- `parseFloat(x.toFixed(2))`: rounding to 2 decimal places
(round-half-away-from-zero on the idealized non-negative values used here). -/
def round2 (x : ℚ) : ℚ :=
  (round (100 * x) : ℤ) / 100

/-- The per-candidate simulated confidence (lines 29-35 of the matcher):
base drawn from `[0.60, 0.95)`, a recency bonus decaying linearly to 0 over
30 days since registration, the sum clamped to at most `0.98`. -/
def candidateConfidence (nowMs : ℚ) (draw : ℚ) (s : Student) : ℚ :=
  let timeSinceRegistration := nowMs - s.registeredAt.epochMs
  let baseConfidence := 6/10 + draw * (35/100)
  let timeBonus := max 0 (1/10 - timeSinceRegistration / (1000 * 60 * 60 * 24 * 30))
  min (98/100) (baseConfidence + timeBonus)

/-- `!bestMatch || confidence > bestMatch.confidence`. -/
def beatsBest (confidence : ℚ) : Option (Student × ℚ) → Bool
  | none => true
  | some bm => decide (bm.2 < confidence)

/-- The body of the matcher's candidate loop: a candidate becomes the new
best match when its raw confidence passes the threshold and strictly exceeds
the stored (already rounded) confidence of the current best; the stored
confidence of the new best is rounded to 2 decimals (line 38). -/
def updateBest (threshold : ℚ) (s : Student) (confidence : ℚ)
    (best : Option (Student × ℚ)) : Option (Student × ℚ) :=
  if threshold ≤ confidence ∧ beatsBest confidence best = true then
    some (s, round2 confidence)
  else best

/-- The matcher's `for` loop over the scored candidates. -/
def selectBest (threshold : ℚ) :
    List (Student × ℚ) → Option (Student × ℚ) → Option (Student × ℚ)
  | [], best => best
  | (s, c) :: rest, best => selectBest threshold rest (updateBest threshold s c best)

/-- Each candidate paired with its simulated confidence; the candidate at
position `k` of the filtered list consumes the draw at index `i + k`. -/
def scoresFrom (nowMs : ℚ) (draws : ℕ → ℚ) : ℕ → List Student → List (Student × ℚ)
  | _, [] => []
  | i, s :: ss =>
    (s, candidateConfidence nowMs (draws i) s) :: scoresFrom nowMs draws (i + 1) ss

/-- Observable outcome of one matcher invocation: the returned value, how
many random draws were consumed, and the simulated processing delay (in
milliseconds) if one was awaited. -/
structure MatchRun where
  result : Option (Student × ℚ)
  drawsConsumed : ℕ
  delayMs : Option ℚ
deriving DecidableEq

/-- `simulateFaceRecognition` from `src/utils/faceRecognition.ts`.
If no registered student has a photo the function returns before the delay
and before any draw; otherwise the delay draw (index 0) is consumed, each
filtered candidate consumes one draw, and the final draw is the 15%
false-negative gate applied once to the computed best match. -/
def simulateFaceRecognition (imageData : String) (students : List Student)
    (confidenceThreshold : ℚ) (draws : ℕ → ℚ) (nowMs : ℚ) : MatchRun :=
  let studentsWithPhotos := students.filter hasPhoto
  if studentsWithPhotos.isEmpty then
    { result := none, drawsConsumed := 0, delayMs := none }
  else
    let bestMatch :=
      selectBest confidenceThreshold (scoresFrom nowMs draws 1 studentsWithPhotos) none
    { result :=
        if draws (studentsWithPhotos.length + 1) < 15/100 then none else bestMatch
      drawsConsumed := studentsWithPhotos.length + 2
      delayMs := some (1000 + draws 0 * 2000) }

/-- Working-hours window of `AttendanceSettings` (`end` is a reserved word
in Lean, so that field is named `endTime`). -/
structure WorkingHours where
  start : String
  endTime : String
deriving DecidableEq

/-- `AttendanceSettings` from `src/types/index.ts` (the fields the decision
core reads). -/
structure AttendanceSettings where
  autoMarkingEnabled : Bool
  confidenceThreshold : ℚ
  allowMultipleMarking : Bool
  workingHours : WorkingHours
deriving DecidableEq

/-- JavaScript `s.split(c)`, implemented on the string's character list
(splitting on every occurrence of `c`, keeping empty groups). -/
def splitOnChar (c : Char) : List Char → List (List Char)
  | [] => [[]]
  | a :: rest =>
    if a = c then [] :: splitOnChar c rest
    else
      match splitOnChar c rest with
      | [] => [[a]]
      | g :: gs => (a :: g) :: gs

/-- JavaScript `parseInt` on a string of decimal digits (the only shape the
source feeds it: the `"HH"` and `"MM"` components of a time string). -/
def digitsToNat (l : List Char) : ℕ :=
  l.foldl (fun acc c => acc * 10 + (c.toNat - 48)) 0

/-- `parseInt(hm.split(':')[0]) * 60 + parseInt(hm.split(':')[1])`. -/
def toMinutes (hm : String) : ℕ :=
  digitsToNat ((splitOnChar ':' hm.data).getD 0 []) * 60 +
    digitsToNat ((splitOnChar ':' hm.data).getD 1 [])

/-- The four observable outcomes of `handleAttendanceMarked`. -/
inductive Decision
  | AcceptedNormal
  | AcceptedOutsideWorkingHours
  | RejectedAlreadyMarkedToday
  | WriteFailed
deriving DecidableEq

/-- Notification severity (`NotificationMessage.type`). -/
inductive NotifKind
  | success
  | warning
  | error
  | info
deriving DecidableEq

/-- Result of one call to `handleAttendanceMarked`: the decision taken,
whether the record was persisted, the notification emitted, and the record
collection after the post-write refetch. -/
structure MarkOutcome where
  decision : Decision
  persisted : Bool
  notifType : NotifKind
  notifTitle : String
  records : List AttendanceRecordIn
deriving DecidableEq

/-- `handleAttendanceMarked` from `src/App.tsx` (lines 90-133).  `now`
models the `new Date()` calls in its body and `storageOk` the outcome of the
awaited `addAttendanceRecord` write.  The duplicate check compares each
existing record's calendar date with today's date and its student id with
the proposal's; when it fires and multiple marking is disabled the proposal
is rejected with a warning and nothing is persisted. -/
def handleAttendanceMarked (record : AttendanceRecordIn)
    (records : List AttendanceRecordIn) (settings : AttendanceSettings)
    (now : JsDate) (storageOk : Bool) : MarkOutcome :=
  let hasAttendedToday := records.any fun r =>
    decide (r.studentId = record.studentId ∧ dateString r.timestamp = dateString now)
  if !hasAttendedToday || settings.allowMultipleMarking then
    if storageOk then
      if toMinutes settings.workingHours.start ≤ minutesOfDay now ∧
          minutesOfDay now ≤ toMinutes settings.workingHours.endTime then
        { decision := .AcceptedNormal, persisted := true, notifType := .success
          notifTitle := "Attendance Marked", records := records ++ [record] }
      else
        { decision := .AcceptedOutsideWorkingHours, persisted := true
          notifType := .warning, notifTitle := "Outside Working Hours"
          records := records ++ [record] }
    else
      { decision := .WriteFailed, persisted := false, notifType := .error
        notifTitle := "Error", records := records }
  else
    { decision := .RejectedAlreadyMarkedToday, persisted := false
      notifType := .warning, notifTitle := "Already Marked", records := records }

/-- The record-proposal step of `handleRecognition` in
`src/components/CameraView.tsx` (lines 37-72): a record is proposed only
when the matcher returned a result whose (rounded) confidence still passes
the active threshold; the proposed record copies that confidence and stamps
the current time. -/
def handleRecognition (frameData : String) (students : List Student)
    (confidenceThreshold : ℚ) (draws : ℕ → ℚ) (now : JsDate)
    (deviceInfo : String) : Option AttendanceRecordIn :=
  match (simulateFaceRecognition frameData students confidenceThreshold draws
      now.epochMs).result with
  | some r =>
    if confidenceThreshold ≤ r.2 then
      some { studentId := r.1.id, studentName := r.1.name, timestamp := now
             confidence := r.2, photo := some frameData
             location := some "Main Campus", deviceInfo := some deviceInfo }
    else none
  | none => none

/-- `NotificationMessage` from `src/types/index.ts`. -/
structure NotificationMessage where
  id : String
  type : NotifKind
  title : String
  message : String
  timestamp : JsDate
  read : Bool
deriving DecidableEq

/-- `addNotification` from `src/hooks/useNotifications.ts`: the new entry is
prepended and only the first 50 entries are kept. -/
def addNotification (ntype : NotifKind) (title message : String)
    (idNow : String) (ts : JsDate) (prev : List NotificationMessage) :
    List NotificationMessage :=
  ({ id := idNow, type := ntype, title := title, message := message
     timestamp := ts, read := false } :: prev).take 50

/-- `markAsRead` from `src/hooks/useNotifications.ts`. -/
def markAsRead (id : String) (l : List NotificationMessage) :
    List NotificationMessage :=
  l.map fun n => if n.id == id then { n with read := true } else n

/-- `clearAll` from `src/hooks/useNotifications.ts`. -/
def clearAll : List NotificationMessage := []

/-- `Omit<Student, 'id' | 'registeredAt' | 'isActive'>`, the payload of
`addStudent`. -/
structure StudentData where
  name : String
  email : String
  studentId : Option String
  department : Option String
  year : Option String
  photo : Option String
deriving DecidableEq

/-- The student row created by `addStudent` (storage fills in the id, the
creation timestamp and `is_active = true`). -/
def mkStudent (d : StudentData) (newId : String) (createdAt : JsDate) : Student :=
  { id := newId, name := d.name, email := d.email, studentId := d.studentId
    department := d.department, year := d.year, photo := d.photo
    registeredAt := createdAt, isActive := true }

/-- Contents of the backing store (the supabase tables). -/
structure Db where
  students : List Student
  records : List AttendanceRecordIn
deriving DecidableEq

/-- The locally held React state of `useDatabase`. -/
structure LocalState where
  students : List Student
  records : List AttendanceRecordIn
  error : Option String
deriving DecidableEq

/-- The four storage write operations of `src/hooks/useDatabase.ts`; the
data the storage layer generates (new ids, creation timestamps) is carried
as parameters. -/
inductive WriteOp
  | addStudent (data : StudentData) (newId : String) (createdAt : JsDate)
  | removeStudent (id : String)
  | toggleStudentStatus (id : String)
  | addAttendanceRecord (record : AttendanceRecordIn)

/-- One write operation of `useDatabase`, with `storageOk` the outcome of
the awaited storage call.  On success the affected collection(s) are
refetched in full from the store (students for `addStudent` and
`toggleStudentStatus`, both collections for `removeStudent` — whose deletion
cascades to the student's records at the storage layer — and records for
`addAttendanceRecord`).  On failure only the error message is set; no local
collection is touched, because no optimistic update was applied. -/
def runWrite (op : WriteOp) (storageOk : Bool) (db : Db) (st : LocalState) :
    Db × LocalState :=
  if storageOk then
    match op with
    | .addStudent d newId createdAt =>
      let db' : Db := { db with students := mkStudent d newId createdAt :: db.students }
      (db', { st with students := db'.students })
    | .removeStudent i =>
      let db' : Db :=
        { students := db.students.filter fun s => !(s.id == i)
          records := db.records.filter fun r => !(r.studentId == i) }
      (db', { st with students := db'.students, records := db'.records })
    | .toggleStudentStatus i =>
      match st.students.find? (fun s => s.id == i) with
      | none => (db, st)
      | some s =>
        let db' : Db :=
          { db with students := db.students.map fun t =>
              if t.id == i then { t with isActive := !s.isActive } else t }
        (db', { st with students := db'.students })
    | .addAttendanceRecord r =>
      let db' : Db := { db with records := db.records ++ [r] }
      (db', { st with records := db'.records })
  else
    (db, { st with error := some "write failed" })

/-! Concrete inputs used to instantiate theorems with hypotheses.
`2592000000` milliseconds is exactly 30 days, so a student registered at
epoch 0 evaluated at that instant has a recency bonus of 0 and the simulated
confidence is exactly `0.6 + draw * 0.35`. -/

/-- Epoch instant 30 days after `studentA`'s registration (noon, local). -/
def dateW : JsDate := ⟨2025, 5, 10, 12, 0, 2592000000⟩

/-- A registered student with a reference photo, registered at epoch 0. -/
def studentA : Student :=
  ⟨"a", "Alice", "alice@example.com", none, none, none, some "photoA",
    ⟨2025, 4, 10, 0, 0, 0⟩, true⟩

/-- A second registered student with a reference photo. -/
def studentB : Student :=
  ⟨"b", "Bob", "bob@example.com", none, none, none, some "photoB",
    ⟨2025, 4, 10, 0, 0, 0⟩, true⟩

/-- Draw stream giving `studentA` the simulated confidence
`0.6 + 0.4 * 0.35 = 0.74` and passing the false-negative gate. -/
def drawsT : ℕ → ℚ
  | 1 => 2/5
  | _ => 1/2

/-- Draw stream giving confidence `0.74` but failing the final
false-negative gate (`drawsT` at index 2 is `0.1 < 0.15`). -/
def drawsFN : ℕ → ℚ
  | 1 => 2/5
  | 2 => 1/10
  | _ => 1/2

/-- Draw stream for the tie-after-rounding counterexample: `studentA` gets
raw confidence `0.772` (rounds to `0.77`), `studentB` gets `0.771`. -/
def drawsCE : ℕ → ℚ
  | 1 => 86/175
  | 2 => 171/350
  | _ => 1/2

/-- Draw stream giving raw confidence exactly `0.754`, which the matcher
rounds down to `0.75`. -/
def drawsC4 : ℕ → ℚ
  | 1 => 11/25
  | _ => 1/2

/-- The record the camera pipeline proposes for `studentA` on the `drawsT`
run. -/
def recW : AttendanceRecordIn :=
  ⟨"a", "Alice", dateW, 37/50, some "fr", some "Main Campus", some "dev"⟩

/-- Default-like settings: multiple marking disabled, working hours
09:00-17:00. -/
def settingsW : AttendanceSettings := ⟨true, 3/4, false, ⟨"09:00", "17:00"⟩⟩

/-- An instant on `dateW`'s calendar day at the given local time. -/
def dateAt (h m : ℕ) : JsDate := ⟨2025, 5, 10, h, m, 0⟩

/-- A proposed record for `studentA` stamped at the given local time. -/
def recAt (h m : ℕ) : AttendanceRecordIn :=
  ⟨"a", "Alice", dateAt h m, 3/4, none, none, none⟩

/-- An existing attendance record for `studentA` earlier on the same
calendar day as `dateW`. -/
def recX : AttendanceRecordIn :=
  ⟨"a", "Alice", dateAt 8 0, 1/2, none, none, none⟩

/-- A stored notification. -/
def notifW : NotificationMessage :=
  ⟨"n", .info, "t", "m", ⟨2025, 5, 10, 0, 0, 0⟩, false⟩

/-- A full notification list of exactly 50 entries. -/
def notifListW : List NotificationMessage := List.replicate 50 notifW

/-! Helper lemmas about the matcher's candidate loop. -/

/-- `updateBest` yields `none` exactly when the running best was `none` and
the candidate misses the threshold. -/
theorem updateBest_eq_none_iff (θ : ℚ) (s : Student) (c : ℚ)
    (b : Option (Student × ℚ)) :
    updateBest θ s c b = none ↔ b = none ∧ c < θ := by
  unfold updateBest
  split
  · rename_i h
    simp [not_lt.mpr h.1]
  · rename_i h
    cases b with
    | none =>
      simp only [beatsBest] at h
      simp at h
      simp [h]
    | some q => simp

/-- The candidate loop returns `none` exactly when it started from `none`
and no candidate reaches the threshold. -/
theorem selectBest_eq_none_iff (θ : ℚ) (l : List (Student × ℚ))
    (b : Option (Student × ℚ)) :
    selectBest θ l b = none ↔ b = none ∧ ∀ p ∈ l, p.2 < θ := by
  induction l generalizing b with
  | nil => simp [selectBest]
  | cons p rest ih =>
    obtain ⟨s, c⟩ := p
    rw [selectBest, ih, updateBest_eq_none_iff]
    simp [List.forall_mem_cons, and_assoc]

/-- Any value the candidate loop produces beyond its initial accumulator is
the 2-decimal rounding of some candidate's raw confidence that passed the
threshold. -/
theorem selectBest_some_src (θ : ℚ) (l : List (Student × ℚ))
    (b : Option (Student × ℚ)) (s : Student) (c : ℚ)
    (h : selectBest θ l b = some (s, c)) :
    b = some (s, c) ∨ ∃ raw, (s, raw) ∈ l ∧ θ ≤ raw ∧ c = round2 raw := by
  induction l generalizing b with
  | nil => exact Or.inl h
  | cons p rest ih =>
    obtain ⟨s0, c0⟩ := p
    rw [selectBest] at h
    rcases ih _ h with h1 | h2
    · unfold updateBest at h1
      split at h1
      · rename_i hc
        obtain ⟨rfl, rfl⟩ : s0 = s ∧ round2 c0 = c := by simpa using h1
        exact Or.inr ⟨c0, by simp, hc.1, rfl⟩
      · exact Or.inl h1
    · obtain ⟨raw, hmem, hle, hc⟩ := h2
      exact Or.inr ⟨raw, List.mem_cons_of_mem _ hmem, hle, hc⟩

/-- Characterization of the candidate loop when every confidence is a fixed
point of 2-decimal rounding: either the initial accumulator survives and
dominates every valid candidate, or the returned pair is the first candidate
attaining the strict maximum among valid candidates. -/
theorem selectBest_char (θ : ℚ) (l : List (Student × ℚ))
    (b : Option (Student × ℚ)) (hfix : ∀ p ∈ l, round2 p.2 = p.2)
    (s : Student) (c : ℚ) (h : selectBest θ l b = some (s, c)) :
    (b = some (s, c) ∧ ∀ p ∈ l, θ ≤ p.2 → p.2 ≤ c) ∨
    (θ ≤ c ∧ (∀ q : Student × ℚ, b = some q → q.2 < c) ∧
      ∃ l1 l2, l = l1 ++ (s, c) :: l2 ∧ (∀ p ∈ l1, θ ≤ p.2 → p.2 < c) ∧
        ∀ p ∈ l2, θ ≤ p.2 → p.2 ≤ c) := by
  induction l generalizing b with
  | nil =>
    left
    refine ⟨h, ?_⟩
    simp
  | cons p rest ih =>
    obtain ⟨s0, c0⟩ := p
    have hfix0 : round2 c0 = c0 := hfix (s0, c0) (by simp)
    have hfixr : ∀ q ∈ rest, round2 q.2 = q.2 := fun q hq => hfix q (by simp [hq])
    rw [selectBest] at h
    by_cases hcond : θ ≤ c0 ∧ beatsBest c0 b = true
    · have hupd : updateBest θ s0 c0 b = some (s0, c0) := by
        simp [updateBest, hcond, hfix0]
      rw [hupd] at h
      rcases ih _ hfixr h with ⟨hb, hrest⟩ | ⟨hθ, hbq, l1, l2, hdec, h1, h2⟩
      · right
        obtain ⟨rfl, rfl⟩ : s0 = s ∧ c0 = c := by simpa using hb
        refine ⟨hcond.1, ?_, [], rest, by simp, by simp, hrest⟩
        intro q hq
        have hbt := hcond.2
        rw [hq] at hbt
        simpa [beatsBest] using hbt
      · right
        have hc0c : c0 < c := hbq (s0, c0) rfl
        refine ⟨hθ, ?_, (s0, c0) :: l1, l2, by simp [hdec], ?_, h2⟩
        · intro q hq
          have hbt := hcond.2
          rw [hq] at hbt
          have hqlt : q.2 < c0 := by simpa [beatsBest] using hbt
          exact hqlt.trans hc0c
        · intro p hp
          rcases List.mem_cons.mp hp with rfl | hp'
          · intro _; exact hc0c
          · exact h1 p hp'
    · have hupd : updateBest θ s0 c0 b = b := by
        unfold updateBest
        rw [if_neg hcond]
      rw [hupd] at h
      rcases ih _ hfixr h with ⟨hb, hrest⟩ | ⟨hθ, hbq, l1, l2, hdec, h1, h2⟩
      · left
        refine ⟨hb, ?_⟩
        intro p hp hθp
        rcases List.mem_cons.mp hp with rfl | hp'
        · have hbeats : ¬(beatsBest c0 b = true) := fun hbt => hcond ⟨hθp, hbt⟩
          rw [hb] at hbeats
          simpa [beatsBest, not_lt] using hbeats
        · exact hrest p hp' hθp
      · right
        refine ⟨hθ, hbq, (s0, c0) :: l1, l2, by simp [hdec], ?_, h2⟩
        intro p hp hθp
        rcases List.mem_cons.mp hp with rfl | hp'
        · have hbeats : ¬(beatsBest c0 b = true) := fun hbt => hcond ⟨hθp, hbt⟩
          cases hbx : b with
          | none => rw [hbx] at hbeats; simp [beatsBest] at hbeats
          | some q =>
            rw [hbx] at hbeats
            have hq : c0 ≤ q.2 := by simpa [beatsBest, not_lt] using hbeats
            exact lt_of_le_of_lt hq (hbq q hbx)
        · exact h1 p hp' hθp

/-- Every simulated confidence is clamped to at most `0.98`. -/
theorem scoresFrom_confidence_le (nowMs : ℚ) (draws : ℕ → ℚ) (i : ℕ)
    (cs : List Student) : ∀ p ∈ scoresFrom nowMs draws i cs, p.2 ≤ 98/100 := by
  induction cs generalizing i with
  | nil => simp [scoresFrom]
  | cons s ss ih =>
    intro p hp
    rw [scoresFrom] at hp
    rcases List.mem_cons.mp hp with rfl | hp'
    · unfold candidateConfidence
      exact min_le_left _ _
    · exact ih (i + 1) p hp'

/-- A non-`None` matcher result is the value of the candidate loop (the
candidate set was non-empty and the false-negative gate did not fire). -/
theorem simFR_result_some (img : String) (students : List Student) (θ : ℚ)
    (draws : ℕ → ℚ) (nowMs : ℚ) (s : Student) (c : ℚ)
    (h : (simulateFaceRecognition img students θ draws nowMs).result = some (s, c)) :
    selectBest θ (scoresFrom nowMs draws 1 (students.filter hasPhoto)) none =
      some (s, c) := by
  unfold simulateFaceRecognition at h
  by_cases he : (students.filter hasPhoto).isEmpty = true
  · simp [he] at h
  · simp only [he] at h
    by_cases hfn : draws ((students.filter hasPhoto).length + 1) < 15/100
    · simp [hfn] at h
    · simpa [hfn] using h

/-- Any non-`None` matcher result pairs a candidate with the 2-decimal
rounding of that candidate's raw confidence, a confidence that passed the
threshold. -/
theorem simFR_some_src (img : String) (students : List Student) (θ : ℚ)
    (draws : ℕ → ℚ) (nowMs : ℚ) (s : Student) (c : ℚ)
    (h : (simulateFaceRecognition img students θ draws nowMs).result = some (s, c)) :
    ∃ raw, (s, raw) ∈ scoresFrom nowMs draws 1 (students.filter hasPhoto) ∧
      θ ≤ raw ∧ c = round2 raw := by
  have hsel := simFR_result_some img students θ draws nowMs s c h
  rcases selectBest_some_src θ _ none s c hsel with hb | hsrc
  · exact absurd hb (by simp)
  · exact hsrc

/-- `round` is monotone. -/
theorem round_mono_q {x y : ℚ} (h : x ≤ y) : round x ≤ round y := by
  rw [round_eq, round_eq]
  exact Int.floor_mono (by linarith)

/-- 2-decimal rounding of a rational that is an integer number of
hundredths is the identity. -/
theorem round2_intQuot (k : ℤ) : round2 ((k : ℚ) / 100) = (k : ℚ) / 100 := by
  unfold round2
  have h : (100 : ℚ) * ((k : ℚ) / 100) = (k : ℚ) := by field_simp
  rw [h, round_intCast]

/-- 2-decimal rounding is idempotent. -/
theorem round2_round2 (x : ℚ) : round2 (round2 x) = round2 x :=
  round2_intQuot (round (100 * x))

/-! Evaluation lemmas for the concrete runs used as witnesses. -/

/-- Unfolding of the matcher in the non-empty-candidate case. -/
theorem simFR_eval (img : String) (students : List Student) (θ : ℚ)
    (draws : ℕ → ℚ) (nowMs : ℚ)
    (hne : (students.filter hasPhoto).isEmpty = false) :
    simulateFaceRecognition img students θ draws nowMs =
      { result :=
          if draws ((students.filter hasPhoto).length + 1) < 15/100 then none
          else selectBest θ (scoresFrom nowMs draws 1 (students.filter hasPhoto)) none
        drawsConsumed := (students.filter hasPhoto).length + 2
        delayMs := some (1000 + draws 0 * 2000) } := by
  unfold simulateFaceRecognition
  dsimp only
  rw [hne]
  simp

/-- `studentA` passes the photo filter. -/
theorem filterA : [studentA].filter hasPhoto = [studentA] := by
  simp [hasPhoto, studentA]

/-- Both concrete students pass the photo filter. -/
theorem filterAB : [studentA, studentB].filter hasPhoto = [studentA, studentB] := by
  simp [hasPhoto, studentA, studentB]

/-- Confidence of `studentA` on the `drawsT` stream: `0.6 + 0.4 * 0.35 = 0.74`. -/
theorem confT1 : candidateConfidence 2592000000 (drawsT 1) studentA = 74/100 := by
  show candidateConfidence 2592000000 (2/5) studentA = 74/100
  unfold candidateConfidence studentA
  norm_num

/-- Confidence of `studentA` on the `drawsFN` stream (same candidate draw). -/
theorem confFN1 : candidateConfidence 2592000000 (drawsFN 1) studentA = 74/100 := by
  show candidateConfidence 2592000000 (2/5) studentA = 74/100
  unfold candidateConfidence studentA
  norm_num

/-- Confidence of `studentA` on the `drawsCE` stream: `0.772`. -/
theorem confCE1 : candidateConfidence 2592000000 (drawsCE 1) studentA = 772/1000 := by
  show candidateConfidence 2592000000 (86/175) studentA = 772/1000
  unfold candidateConfidence studentA
  norm_num

/-- Confidence of `studentB` on the `drawsCE` stream: `0.771`. -/
theorem confCE2 : candidateConfidence 2592000000 (drawsCE 2) studentB = 771/1000 := by
  show candidateConfidence 2592000000 (171/350) studentB = 771/1000
  unfold candidateConfidence studentB
  norm_num

/-- Confidence of `studentA` on the `drawsC4` stream: exactly `0.754`. -/
theorem confC4 : candidateConfidence 2592000000 (drawsC4 1) studentA = 377/500 := by
  show candidateConfidence 2592000000 (11/25) studentA = 377/500
  unfold candidateConfidence studentA
  norm_num

/-- `0.74` is already a 2-decimal value. -/
theorem round74 : round2 (74/100) = 74/100 := by
  unfold round2
  rw [show (100 : ℚ) * (74/100) = ((74:ℤ):ℚ) by norm_num, round_intCast]
  norm_num

/-- `0.772` rounds to `0.77`. -/
theorem round772 : round2 (772/1000) = 77/100 := by
  unfold round2
  rw [show (100 : ℚ) * (772/1000) = 772/10 by norm_num]
  rw [show round ((772/10 : ℚ)) = 77 by rw [round_eq]; norm_num [Int.floor_eq_iff]]
  norm_num

/-- `0.771` rounds to `0.77`. -/
theorem round771 : round2 (771/1000) = 77/100 := by
  unfold round2
  rw [show (100 : ℚ) * (771/1000) = 771/10 by norm_num]
  rw [show round ((771/10 : ℚ)) = 77 by rw [round_eq]; norm_num [Int.floor_eq_iff]]
  norm_num

/-- `0.754` rounds down to `0.75`. -/
theorem round754 : round2 (377/500) = 3/4 := by
  unfold round2
  rw [show (100 : ℚ) * (377/500) = 377/5 by norm_num]
  rw [show round ((377/5 : ℚ)) = 75 by rw [round_eq]; norm_num [Int.floor_eq_iff]]
  norm_num

/-- The scored candidate list of the `drawsT` run. -/
theorem scoresT : scoresFrom 2592000000 drawsT 1 ([studentA].filter hasPhoto)
    = [(studentA, 74/100)] := by
  rw [filterA]
  rw [scoresFrom, scoresFrom, confT1]

/-- The scored candidate list of the `drawsCE` run. -/
theorem scoresCE : scoresFrom 2592000000 drawsCE 1 ([studentA, studentB].filter hasPhoto)
    = [(studentA, 772/1000), (studentB, 771/1000)] := by
  rw [filterAB]
  rw [scoresFrom, scoresFrom, scoresFrom, confCE1, confCE2]

/-- The scored candidate list of the `drawsC4` run. -/
theorem scoresC4 : scoresFrom 2592000000 drawsC4 1 ([studentA].filter hasPhoto)
    = [(studentA, 377/500)] := by
  rw [filterA]
  rw [scoresFrom, scoresFrom, confC4]

/-- Result of the `drawsT` run at threshold `0.7`: `studentA` at `0.74`. -/
theorem resultT710 (img : String) :
    (simulateFaceRecognition img [studentA] (7/10) drawsT 2592000000).result
      = some (studentA, 37/50) := by
  rw [simFR_eval _ _ _ _ _ (by rw [filterA]; rfl)]
  rw [scoresT]
  show (if drawsT 2 < 15/100 then none else
    selectBest (7/10) [(studentA, 74/100)] none) = some (studentA, 37/50)
  rw [if_neg (by show ¬((1/2 : ℚ) < 15/100); norm_num)]
  rw [selectBest, selectBest, updateBest]
  rw [if_pos ⟨by norm_num, rfl⟩]
  rw [round74]
  norm_num

/-- Result of the `drawsCE` run at threshold `0.7`: `studentB` is kept with
stored confidence `0.77` even though `studentA`'s raw confidence was higher. -/
theorem resultCE (img : String) :
    (simulateFaceRecognition img [studentA, studentB] (7/10) drawsCE 2592000000).result
      = some (studentB, 77/100) := by
  rw [simFR_eval _ _ _ _ _ (by rw [filterAB]; rfl)]
  rw [scoresCE]
  show (if drawsCE 3 < 15/100 then none else
    selectBest (7/10) [(studentA, 772/1000), (studentB, 771/1000)] none)
    = some (studentB, 77/100)
  rw [if_neg (by show ¬((1/2 : ℚ) < 15/100); norm_num)]
  rw [selectBest]
  rw [show updateBest (7/10) studentA (772/1000) none = some (studentA, 77/100) by
    rw [updateBest, if_pos ⟨by norm_num, rfl⟩, round772]]
  rw [selectBest]
  rw [show updateBest (7/10) studentB (771/1000) (some (studentA, 77/100))
      = some (studentB, 77/100) by
    rw [updateBest,
      if_pos ⟨by norm_num, by simp only [beatsBest, decide_eq_true_eq]; norm_num⟩,
      round771]]
  rw [selectBest]

/-- Result of the `drawsC4` run at threshold `0.754`: the raw confidence
`0.754` passes the gate but is stored rounded down to `0.75`. -/
theorem resultC4 (img : String) :
    (simulateFaceRecognition img [studentA] (377/500) drawsC4 2592000000).result
      = some (studentA, 3/4) := by
  rw [simFR_eval _ _ _ _ _ (by rw [filterA]; rfl)]
  rw [scoresC4]
  show (if drawsC4 2 < 15/100 then none else
    selectBest (377/500) [(studentA, 377/500)] none) = some (studentA, 3/4)
  rw [if_neg (by show ¬((1/2 : ℚ) < 15/100); norm_num)]
  rw [selectBest, selectBest, updateBest]
  rw [if_pos ⟨by norm_num, rfl⟩]
  rw [round754]

/-- Result of the `drawsFN` run: the false-negative draw `0.1 < 0.15` forces
`None` although the candidate's confidence passed the threshold. -/
theorem resultFN (img : String) :
    (simulateFaceRecognition img [studentA] (7/10) drawsFN 2592000000).result
      = none := by
  rw [simFR_eval _ _ _ _ _ (by rw [filterA]; rfl)]
  show (if drawsFN ((List.filter hasPhoto [studentA]).length + 1) < 15/100 then none
    else selectBest (7/10) (scoresFrom 2592000000 drawsFN 1
      (List.filter hasPhoto [studentA])) none) = none
  rw [filterA]
  rw [if_pos (by show (1/10 : ℚ) < 15/100; norm_num)]

/-- Claim C6: if no candidate has a non-empty reference photo, the matcher
deterministically returns `None`, consumes no random draw and awaits no
simulated delay. -/
theorem empty_candidates_deterministic (img : String) (students : List Student)
    (θ : ℚ) (draws : ℕ → ℚ) (nowMs : ℚ)
    (h : students.filter hasPhoto = []) :
    simulateFaceRecognition img students θ draws nowMs =
      { result := none, drawsConsumed := 0, delayMs := none } := by
  unfold simulateFaceRecognition
  simp [h]

/-- Witness for C6: the matcher on the empty student list. -/
theorem empty_candidates_deterministic_witness :
    simulateFaceRecognition "frame" [] (1/2) drawsT 0 =
      { result := none, drawsConsumed := 0, delayMs := none } :=
  empty_candidates_deterministic "frame" [] (1/2) drawsT 0 rfl

/-- Claim C7: the 15% false-negative gate is the single draw at index
`n + 1`, applied once per invocation after the best valid match is computed,
and it forces the result to `None` independently of whether a valid match
exists; concretely, on the `drawsFN` run the only candidate's confidence
passes the threshold yet the result is `None`. -/
theorem false_negative_gate :
    (∀ (img : String) (students : List Student) (θ : ℚ) (draws : ℕ → ℚ)
        (nowMs : ℚ), draws ((students.filter hasPhoto).length + 1) < 15/100 →
        (simulateFaceRecognition img students θ draws nowMs).result = none) ∧
    (simulateFaceRecognition "frame" [studentA] (7/10) drawsFN 2592000000).result
        = none ∧
    (7/10 : ℚ) ≤ candidateConfidence 2592000000 (drawsFN 1) studentA := by
  refine ⟨?_, resultFN "frame", by rw [confFN1]; norm_num⟩
  intro img students θ draws nowMs hfn
  unfold simulateFaceRecognition
  by_cases he : (students.filter hasPhoto).isEmpty = true
  · simp [he]
  · simp [he, hfn]

/-- Witness for C7: the universally quantified part of the gate theorem at
a concrete input. -/
theorem false_negative_gate_witness :
    (simulateFaceRecognition "fw" [studentA] (7/10) drawsFN 2592000000).result
      = none :=
  false_negative_gate.1 "fw" [studentA] (7/10) drawsFN 2592000000
    (by rw [filterA]; show (1/10 : ℚ) < 15/100; norm_num)

/-- Claim C5: threshold monotonicity — for the same draw stream, a
non-`None` result at threshold `θ` stays non-`None` at any `θ' ≤ θ` (the
per-candidate confidences are computed by `scoresFrom`, which does not take
the threshold as an argument, so only the accept gate changes). -/
theorem threshold_monotonicity (img : String) (students : List Student)
    (θ θ' : ℚ) (draws : ℕ → ℚ) (nowMs : ℚ) (hle : θ' ≤ θ)
    (h : (simulateFaceRecognition img students θ draws nowMs).result ≠ none) :
    (simulateFaceRecognition img students θ' draws nowMs).result ≠ none := by
  by_cases he : (students.filter hasPhoto).isEmpty = true
  · exfalso
    apply h
    unfold simulateFaceRecognition
    simp [he]
  · have hne : (students.filter hasPhoto).isEmpty = false := by
      cases hb : (students.filter hasPhoto).isEmpty
      · rfl
      · exact absurd hb he
    rw [simFR_eval _ _ _ _ _ hne] at h ⊢
    dsimp only at h ⊢
    by_cases hfn : draws ((students.filter hasPhoto).length + 1) < 15/100
    · exact absurd (if_pos hfn) h
    · rw [if_neg hfn] at h ⊢
      intro hnone
      apply h
      rw [selectBest_eq_none_iff] at hnone ⊢
      exact ⟨rfl, fun p hp => lt_of_lt_of_le (hnone.2 p hp) hle⟩

/-- Witness for C5: a run that matches at threshold `0.7` still matches at
threshold `0.6`. -/
theorem threshold_monotonicity_witness :
    (simulateFaceRecognition "fm" [studentA] (3/5) drawsT 2592000000).result ≠
      none :=
  threshold_monotonicity "fm" [studentA] (7/10) (3/5) drawsT 2592000000
    (by norm_num) (by rw [resultT710 "fm"]; simp)

/-- Counterexample to claim C3 as stated: on the `drawsCE` run both
candidates are valid (`0.772` and `0.771`, threshold `0.7`), `studentA` has
the strictly highest simulated confidence and is evaluated first, yet the
matcher returns `studentB` — because the loop stores the best confidence
rounded (`0.772 ↦ 0.77`) and `studentB`'s raw `0.771` strictly exceeds that
stored `0.77`. -/
theorem best_match_argmax_counterexample :
    (simulateFaceRecognition "f3" [studentA, studentB] (7/10) drawsCE
        2592000000).result = some (studentB, 77/100) ∧
    candidateConfidence 2592000000 (drawsCE 1) studentA = 772/1000 ∧
    candidateConfidence 2592000000 (drawsCE 2) studentB = 771/1000 ∧
    (7/10 : ℚ) ≤ 772/1000 ∧ (771/1000 : ℚ) < 772/1000 ∧ studentB ≠ studentA :=
  ⟨resultCE "f3", confCE1, confCE2, by norm_num, by norm_num,
    by simp [studentA, studentB]⟩

/-- Claim C3 (amended): a candidate is a valid match only if its simulated
confidence is at least the threshold, and whenever every candidate's
simulated confidence is unchanged by 2-decimal rounding, the matcher's
non-`None` result is the first valid match of strictly greatest confidence:
every valid candidate evaluated before it scores strictly less, every valid
candidate after it scores no more. -/
theorem best_match_first_argmax (img : String) (students : List Student)
    (θ : ℚ) (draws : ℕ → ℚ) (nowMs : ℚ) (s : Student) (c : ℚ)
    (hfix : ∀ p ∈ scoresFrom nowMs draws 1 (students.filter hasPhoto),
      round2 p.2 = p.2)
    (h : (simulateFaceRecognition img students θ draws nowMs).result = some (s, c)) :
    θ ≤ c ∧ ∃ l1 l2,
      scoresFrom nowMs draws 1 (students.filter hasPhoto) = l1 ++ (s, c) :: l2 ∧
      (∀ p ∈ l1, θ ≤ p.2 → p.2 < c) ∧ ∀ p ∈ l2, θ ≤ p.2 → p.2 ≤ c := by
  have hsel := simFR_result_some img students θ draws nowMs s c h
  rcases selectBest_char θ _ none hfix s c hsel with ⟨hb, _⟩ | ⟨hθ, _, l1, l2, hdec, h1, h2⟩
  · exact absurd hb (by simp)
  · exact ⟨hθ, l1, l2, hdec, h1, h2⟩

/-- Witness for the amended C3 at the `drawsT` run, where the single
candidate's confidence `0.74` is already a 2-decimal value. -/
theorem best_match_first_argmax_witness :
    (7/10 : ℚ) ≤ 37/50 ∧ ∃ l1 l2,
      scoresFrom 2592000000 drawsT 1 ([studentA].filter hasPhoto) =
        l1 ++ (studentA, 37/50) :: l2 ∧
      (∀ p ∈ l1, (7/10 : ℚ) ≤ p.2 → p.2 < 37/50) ∧
      ∀ p ∈ l2, (7/10 : ℚ) ≤ p.2 → p.2 ≤ 37/50 :=
  best_match_first_argmax "fm" [studentA] (7/10) drawsT 2592000000 studentA (37/50)
    (by
      rw [scoresT]
      intro p hp
      rw [List.mem_singleton] at hp
      subst hp
      show round2 (74/100) = 74/100
      exact round74)
    (resultT710 "fm")

/-- Counterexample to claim C4 as stated: at threshold `0.754` the raw
confidence `0.754` passes the gate, but the stored confidence is its
rounding `0.75`, which lies below the threshold — so a non-`None` result
need not have confidence in `[threshold, 0.98]`. -/
theorem confidence_bounds_counterexample :
    (simulateFaceRecognition "fc" [studentA] (377/500) drawsC4
        2592000000).result = some (studentA, 3/4) ∧ (3/4 : ℚ) < 377/500 :=
  ⟨resultC4 "fc", by norm_num⟩

/-- Claim C4 (amended): every non-`None` matcher result carries a
confidence that is a fixed point of 2-decimal rounding, lies in
`[threshold - 0.005, 0.98]`, and lies in `[threshold, 0.98]` whenever the
threshold itself is an integer number of hundredths. -/
theorem confidence_bounds (img : String) (students : List Student) (θ : ℚ)
    (draws : ℕ → ℚ) (nowMs : ℚ) (s : Student) (c : ℚ)
    (h : (simulateFaceRecognition img students θ draws nowMs).result = some (s, c)) :
    round2 c = c ∧ θ - 1/200 ≤ c ∧ c ≤ 98/100 ∧
      ∀ k : ℤ, θ = (k : ℚ)/100 → θ ≤ c := by
  obtain ⟨raw, hmem, hθraw, hcr⟩ := simFR_some_src img students θ draws nowMs s c h
  subst hcr
  have hraw98 : raw ≤ 98/100 := scoresFrom_confidence_le nowMs draws 1 _ (s, raw) hmem
  refine ⟨round2_round2 raw, ?_, ?_, ?_⟩
  · have h1 : (100 : ℚ) * raw - 1/2 < ((round (100 * raw) : ℤ) : ℚ) :=
      sub_half_lt_round _
    unfold round2
    rw [le_div_iff₀ (by norm_num : (0:ℚ) < 100)]
    linarith
  · have h3 : round (100 * raw) ≤ round ((98:ℚ)) := round_mono_q (by linarith)
    have h98 : round ((98:ℚ)) = 98 := by
      rw [show ((98:ℚ)) = ((98:ℤ):ℚ) by norm_num]
      exact round_intCast 98
    have h4 : ((round (100 * raw) : ℤ) : ℚ) ≤ 98 := by
      exact_mod_cast h3.trans_eq h98
    unfold round2
    linarith
  · intro k hk
    subst hk
    have h5 : ((k:ℚ)) ≤ 100 * raw := by
      rw [div_le_iff₀ (by norm_num : (0:ℚ) < 100)] at hθraw
      linarith
    have h6 : k ≤ round (100 * raw) := by
      have := round_mono_q h5
      rwa [round_intCast] at this
    have h7 : ((k:ℤ):ℚ) ≤ ((round (100 * raw) : ℤ) : ℚ) := by exact_mod_cast h6
    unfold round2
    rw [div_le_div_iff₀ (by norm_num : (0:ℚ) < 100) (by norm_num : (0:ℚ) < 100)]
    linarith

/-- Witness for the amended C4 at the `drawsT` run. -/
theorem confidence_bounds_witness :
    round2 (37/50) = 37/50 ∧ (7/10 : ℚ) - 1/200 ≤ 37/50 ∧ (37/50 : ℚ) ≤ 98/100 ∧
      ∀ k : ℤ, (7/10 : ℚ) = (k : ℚ)/100 → (7/10 : ℚ) ≤ 37/50 :=
  confidence_bounds "fb" [studentA] (7/10) drawsT 2592000000 studentA (37/50)
    (resultT710 "fb")

/-- Claim C10: the camera pipeline re-validates the matcher's rounded
confidence against the active threshold before proposing a record, so every
proposed attendance record carries a confidence that is at least the
threshold and is a fixed point of 2-decimal rounding. -/
theorem proposed_confidence_revalidated (frame : String)
    (students : List Student) (θ : ℚ) (draws : ℕ → ℚ) (now : JsDate)
    (dev : String) (rec : AttendanceRecordIn)
    (h : handleRecognition frame students θ draws now dev = some rec) :
    θ ≤ rec.confidence ∧ round2 rec.confidence = rec.confidence := by
  unfold handleRecognition at h
  cases hr : (simulateFaceRecognition frame students θ draws now.epochMs).result with
  | none =>
    rw [hr] at h
    exact absurd h (by simp)
  | some r =>
    rw [hr] at h
    obtain ⟨s0, c0⟩ := r
    dsimp only at h
    by_cases hc : θ ≤ c0
    · rw [if_pos hc] at h
      have hrec : rec.confidence = c0 := by
        injection h with h1
        rw [← h1]
      constructor
      · rw [hrec]; exact hc
      · obtain ⟨raw, _, _, hcraw⟩ :=
          simFR_some_src frame students θ draws now.epochMs s0 c0 hr
        rw [hrec, hcraw]
        exact round2_round2 raw
    · rw [if_neg hc] at h
      exact absurd h (by simp)

/-- Witness for C10: the record proposed on the `drawsT` run. -/
theorem proposed_confidence_revalidated_witness :
    (7/10 : ℚ) ≤ recW.confidence ∧ round2 recW.confidence = recW.confidence :=
  proposed_confidence_revalidated "fr" [studentA] (7/10) drawsT dateW "dev" recW
    (by
      unfold handleRecognition
      rw [show dateW.epochMs = (2592000000 : ℚ) from rfl, resultT710 "fr"]
      dsimp only
      rw [if_pos (by norm_num : (7 : ℚ)/10 ≤ 37/50)]
      rfl)

/-- Claim C1: with the proposed record stamped at the decision instant (as
the camera pipeline stamps it), if multiple marking is disabled and some
existing record has the same student id and the same calendar date as the
proposal's timestamp, the proposal is rejected as already marked, a warning
is emitted and no record is persisted; with multiple marking enabled, two
successive proposals are both accepted and both persisted. -/
theorem duplicate_suppression (settings : AttendanceSettings)
    (record rec2 : AttendanceRecordIn) (records : List AttendanceRecordIn)
    (now now2 : JsDate) (ht : record.timestamp = now) :
    (settings.allowMultipleMarking = false →
      (∃ r ∈ records, r.studentId = record.studentId ∧
        dateString r.timestamp = dateString record.timestamp) →
      ∀ storageOk,
        (handleAttendanceMarked record records settings now storageOk).decision =
          Decision.RejectedAlreadyMarkedToday ∧
        (handleAttendanceMarked record records settings now storageOk).persisted
          = false ∧
        (handleAttendanceMarked record records settings now storageOk).notifType
          = NotifKind.warning ∧
        (handleAttendanceMarked record records settings now storageOk).records
          = records) ∧
    (settings.allowMultipleMarking = true →
      ((handleAttendanceMarked record records settings now true).decision =
          Decision.AcceptedNormal ∨
        (handleAttendanceMarked record records settings now true).decision =
          Decision.AcceptedOutsideWorkingHours) ∧
      (handleAttendanceMarked record records settings now true).persisted = true ∧
      ((handleAttendanceMarked rec2
          (handleAttendanceMarked record records settings now true).records
          settings now2 true).decision = Decision.AcceptedNormal ∨
        (handleAttendanceMarked rec2
          (handleAttendanceMarked record records settings now true).records
          settings now2 true).decision = Decision.AcceptedOutsideWorkingHours) ∧
      (handleAttendanceMarked rec2
        (handleAttendanceMarked record records settings now true).records
        settings now2 true).persisted = true ∧
      (handleAttendanceMarked rec2
        (handleAttendanceMarked record records settings now true).records
        settings now2 true).records = records ++ [record, rec2]) := by
  constructor
  · intro hm hdup storageOk
    have hatt : (records.any fun r =>
        decide (r.studentId = record.studentId ∧
          dateString r.timestamp = dateString now)) = true := by
      rw [List.any_eq_true]
      obtain ⟨r, hrmem, hr1, hr2⟩ := hdup
      refine ⟨r, hrmem, ?_⟩
      rw [decide_eq_true_eq]
      exact ⟨hr1, by rw [hr2, ht]⟩
    refine ⟨?_, ?_, ?_, ?_⟩ <;>
    · unfold handleAttendanceMarked
      dsimp only
      rw [hatt, hm]
      simp
  · intro hm
    have step : ∀ (rec : AttendanceRecordIn) (rs : List AttendanceRecordIn)
        (nw : JsDate),
        ((handleAttendanceMarked rec rs settings nw true).decision =
            Decision.AcceptedNormal ∨
          (handleAttendanceMarked rec rs settings nw true).decision =
            Decision.AcceptedOutsideWorkingHours) ∧
        (handleAttendanceMarked rec rs settings nw true).persisted = true ∧
        (handleAttendanceMarked rec rs settings nw true).records = rs ++ [rec] := by
      intro rec rs nw
      by_cases htime : toMinutes settings.workingHours.start ≤ minutesOfDay nw ∧
          minutesOfDay nw ≤ toMinutes settings.workingHours.endTime
      · refine ⟨Or.inl ?_, ?_, ?_⟩ <;>
        · unfold handleAttendanceMarked
          dsimp only
          rw [hm]
          simp [htime]
      · refine ⟨Or.inr ?_, ?_, ?_⟩ <;>
        · unfold handleAttendanceMarked
          dsimp only
          rw [hm]
          simp [htime]
    refine ⟨(step record records now).1, (step record records now).2.1,
      (step rec2 _ now2).1, (step rec2 _ now2).2.1, ?_⟩
    rw [(step rec2 _ now2).2.2, (step record records now).2.2]
    simp

/-- Witness for C1: a same-day duplicate for `studentA` is rejected when
multiple marking is disabled. -/
theorem duplicate_suppression_witness :
    (handleAttendanceMarked recW [recX] settingsW dateW true).decision =
        Decision.RejectedAlreadyMarkedToday ∧
      (handleAttendanceMarked recW [recX] settingsW dateW true).persisted = false ∧
      (handleAttendanceMarked recW [recX] settingsW dateW true).notifType =
        NotifKind.warning ∧
      (handleAttendanceMarked recW [recX] settingsW dateW true).records = [recX] :=
  (duplicate_suppression settingsW recW recW [recX] dateW dateW rfl).1 rfl
    ⟨recX, List.mem_singleton.mpr rfl, rfl, rfl⟩ true

/-- Claim C2: with the proposed record stamped at the decision instant, a
proposal that passes the duplicate check is classified by its timestamp's
minutes-since-midnight against the working-hours window with both endpoints
inclusive — inside yields accepted-normal with a success notification,
outside yields accepted-outside-working-hours with a warning — and in both
cases the record is persisted; with the 09:00-17:00 window, 08:59 and 17:01
are outside while 09:00 and 17:00 are normal. -/
theorem working_hours_classification (record : AttendanceRecordIn)
    (records : List AttendanceRecordIn) (settings : AttendanceSettings)
    (now : JsDate) (ht : record.timestamp = now)
    (hnd : (∃ r ∈ records, r.studentId = record.studentId ∧
        dateString r.timestamp = dateString record.timestamp) →
      settings.allowMultipleMarking = true) :
    ((toMinutes settings.workingHours.start ≤ minutesOfDay record.timestamp ∧
        minutesOfDay record.timestamp ≤ toMinutes settings.workingHours.endTime) →
      (handleAttendanceMarked record records settings now true).decision =
          Decision.AcceptedNormal ∧
        (handleAttendanceMarked record records settings now true).persisted = true ∧
        (handleAttendanceMarked record records settings now true).notifType =
          NotifKind.success ∧
        (handleAttendanceMarked record records settings now true).records =
          records ++ [record]) ∧
    (¬(toMinutes settings.workingHours.start ≤ minutesOfDay record.timestamp ∧
        minutesOfDay record.timestamp ≤ toMinutes settings.workingHours.endTime) →
      (handleAttendanceMarked record records settings now true).decision =
          Decision.AcceptedOutsideWorkingHours ∧
        (handleAttendanceMarked record records settings now true).persisted = true ∧
        (handleAttendanceMarked record records settings now true).notifType =
          NotifKind.warning ∧
        (handleAttendanceMarked record records settings now true).records =
          records ++ [record]) ∧
    (handleAttendanceMarked (recAt 8 59) [] settingsW (dateAt 8 59) true).decision =
      Decision.AcceptedOutsideWorkingHours ∧
    (handleAttendanceMarked (recAt 9 0) [] settingsW (dateAt 9 0) true).decision =
      Decision.AcceptedNormal ∧
    (handleAttendanceMarked (recAt 17 0) [] settingsW (dateAt 17 0) true).decision =
      Decision.AcceptedNormal ∧
    (handleAttendanceMarked (recAt 17 1) [] settingsW (dateAt 17 1) true).decision =
      Decision.AcceptedOutsideWorkingHours := by
  have hcond : ((!(records.any fun r =>
      decide (r.studentId = record.studentId ∧
        dateString r.timestamp = dateString now))) ||
      settings.allowMultipleMarking) = true := by
    cases hany : (records.any fun r =>
        decide (r.studentId = record.studentId ∧
          dateString r.timestamp = dateString now)) with
    | false => simp
    | true =>
      rw [List.any_eq_true] at hany
      obtain ⟨r, hrm, hrp⟩ := hany
      rw [decide_eq_true_eq] at hrp
      have hmm := hnd ⟨r, hrm, hrp.1, by rw [hrp.2, ht]⟩
      simp [hmm]
  rw [ht]
  refine ⟨?_, ?_, ?_, ?_, ?_, ?_⟩
  · intro htime
    refine ⟨?_, ?_, ?_, ?_⟩ <;>
    · unfold handleAttendanceMarked
      dsimp only
      rw [hcond]
      simp [htime]
  · intro htime
    refine ⟨?_, ?_, ?_, ?_⟩ <;>
    · unfold handleAttendanceMarked
      dsimp only
      rw [hcond]
      simp [htime]
  · rfl
  · rfl
  · rfl
  · rfl

/-- Witness for C2: a non-duplicate proposal at 12:00 inside the
09:00-17:00 window is accepted as normal with a success notification. -/
theorem working_hours_classification_witness :
    (handleAttendanceMarked recW [] settingsW dateW true).decision =
        Decision.AcceptedNormal ∧
      (handleAttendanceMarked recW [] settingsW dateW true).persisted = true ∧
      (handleAttendanceMarked recW [] settingsW dateW true).notifType =
        NotifKind.success ∧
      (handleAttendanceMarked recW [] settingsW dateW true).records = [] ++ [recW] :=
  (working_hours_classification recW [] settingsW dateW rfl
    (fun h => absurd h (by simp))).1 (by constructor <;> decide)

/-- Claim C8: the notification list is an insertion-ordered bounded
collection — appending always leaves at most 50 entries, marking-as-read
preserves any ≤ 50 bound, clearing yields the empty list, and appending to
a full list of 50 drops exactly the oldest (last) entry, keeping 50 entries
with the new one first. -/
theorem notification_bound (ntype : NotifKind) (title message idNow id2 : String)
    (ts : JsDate) (l : List NotificationMessage) :
    ((addNotification ntype title message idNow ts l).length ≤ 50 ∧
      (l.length ≤ 50 → (markAsRead id2 l).length ≤ 50) ∧
      (clearAll : List NotificationMessage).length ≤ 50) ∧
    (l.length = 50 →
      addNotification ntype title message idNow ts l =
        { id := idNow, type := ntype, title := title, message := message,
          timestamp := ts, read := false } :: l.dropLast ∧
      (addNotification ntype title message idNow ts l).length = 50) := by
  refine ⟨⟨?_, ?_, ?_⟩, ?_⟩
  · simp [addNotification]
  · intro h
    simpa [markAsRead] using h
  · simp [clearAll]
  · intro hfull
    constructor
    · unfold addNotification
      rw [show (50 : ℕ) = 49 + 1 from rfl, List.take_succ_cons]
      rw [List.dropLast_eq_take, hfull]
    · simp [addNotification, hfull]

/-- Witness for C8: appending a 51st notification to a full list of 50. -/
theorem notification_bound_witness :
    addNotification .info "t2" "m2" "id51" ⟨2025, 5, 10, 0, 0, 0⟩ notifListW =
      { id := "id51", type := .info, title := "t2", message := "m2",
        timestamp := ⟨2025, 5, 10, 0, 0, 0⟩, read := false } :: notifListW.dropLast ∧
    (addNotification .info "t2" "m2" "id51" ⟨2025, 5, 10, 0, 0, 0⟩
      notifListW).length = 50 :=
  (notification_bound .info "t2" "m2" "id51" "x" ⟨2025, 5, 10, 0, 0, 0⟩
    notifListW).2 (by simp [notifListW])

/-- Claim C9: write atomicity on error — when the storage call of any of the
four write operations fails, the locally held student and record collections
are unchanged (no optimistic update was applied), and the store itself is
unchanged; only a refetch after a successful write changes them. -/
theorem write_atomicity_on_error (op : WriteOp) (db : Db) (st : LocalState) :
    (runWrite op false db st).2.students = st.students ∧
    (runWrite op false db st).2.records = st.records ∧
    (runWrite op false db st).1 = db := by
  refine ⟨?_, ?_, ?_⟩ <;> simp [runWrite]
